import Mathlib

/-!
Verification of the Zubax ChibiOS bootloader / config core against its
natural-language specification.

Shallow embedding conventions:
* machine integers are modelled as `Nat` (unsigned) or `Int` (C `int`
  return codes), with `% 2 ^ 64` applied exactly where the C type truncates;
* byte buffers are `List Nat` whose entries stand for `uint8_t` values;
* the storage backend of the bootloader is modelled as the byte list that a
  deterministic `read` exposes: `read(offset, n)` yields
  `(storage.drop offset).take n` and reports the number of bytes obtained,
  which matches a backend that short-reads at the end of its region;
* stateful member functions are modelled as pure functions from the fields
  they read to the fields they write, plus explicit traces of the backend
  calls they issue.
-/

set_option maxRecDepth 8192

namespace ZubaxVerify

/-! ## CRC-64/WE (src/zubax_chibios/bootloader/util.hpp, class CRC64WE)

The source keeps a `uint64_t crc_` initialised to all ones; `add` folds each
byte in MSB-first, performing eight conditional shift/xor rounds per byte
(manually unrolled in the source); `get` returns the state xored with all
ones. -/

/-- Polynomial 0x42F0E1EBA9EA3693 from `CRC64WE::Poly`. -/
def crc64Poly : Nat := 0x42F0E1EBA9EA3693

/-- Top-bit mask `uint64_t(1) << 63` from `CRC64WE::Mask`. -/
def crc64Top : Nat := 2 ^ 63

/-- One round of `crc_ = (crc_ & Mask) ? (crc_ << 1) ^ Poly : crc_ << 1`,
with the truncation to 64 bits that `uint64_t` performs. -/
def crc64Shift (c : Nat) : Nat :=
  if c &&& crc64Top ≠ 0 then ((c <<< 1) ^^^ crc64Poly) % 2 ^ 64 else (c <<< 1) % 2 ^ 64

/-- Effect of one iteration of the `while (len --> 0)` loop of `CRC64WE::add`:
xor the byte in at bit 56, then the eight unrolled shift rounds. -/
def crc64AddByte (c b : Nat) : Nat :=
  crc64Shift (crc64Shift (crc64Shift (crc64Shift
    (crc64Shift (crc64Shift (crc64Shift (crc64Shift (c ^^^ (b <<< 56)))))))))

/-- `CRC64WE::add` over a whole byte buffer. -/
def crc64Add (c : Nat) (bytes : List Nat) : Nat :=
  bytes.foldl crc64AddByte c

/-- A fresh `CRC64WE` fed with `bytes` and read out through `get()`:
initial state all ones, final xor with all ones. -/
def crc64we (bytes : List Nat) : Nat :=
  crc64Add (2 ^ 64 - 1) bytes ^^^ (2 ^ 64 - 1)

/-- C1: the streaming CRC-64/WE implementation (state initialised to all-ones,
`add()` folding bytes MSB-first with polynomial 0x42F0E1EBA9EA3693, `get()`
xoring the state with all-ones) computed over the 9 ASCII bytes "123456789"
yields exactly 0x62EC59E3F1A4F00A. -/
theorem crc64we_check_vector :
    crc64we [49, 50, 51, 52, 53, 54, 55, 56, 57] = 0x62EC59E3F1A4F00A := by
  decide

/-! ## Application descriptor and scanner
(src/zubax_chibios/bootloader/bootloader.hpp, struct AppInfo,
Bootloader::AppDescriptor, Bootloader::locateAppDescriptor)

The storage backend is the byte list `storage`; `backend_.read(offset, n)`
returns the slice `(storage.drop offset).take n` and reports its length,
so it short-reads at the end of the region. -/

/-- Packed `AppInfo` (little-endian in flash): `image_crc : u64`,
`image_size : u32`, `vcs_commit : u32`, `major_version : u8`,
`minor_version : u8`. -/
structure AppInfo where
  image_crc : Nat
  image_size : Nat
  vcs_commit : Nat
  major_version : Nat
  minor_version : Nat
deriving DecidableEq

/-- Packed 32-byte `Bootloader::AppDescriptor`: 8 signature bytes, the
22-byte `AppInfo`, 6 reserved bytes. -/
structure AppDescriptor where
  signature : List Nat
  app_info : AppInfo
  reserved : List Nat
deriving DecidableEq

/-- `AppDescriptor::getSignatureValue()`, the ASCII bytes of "APDesc00". -/
def signatureValue : List Nat := [65, 80, 68, 101, 115, 99, 48, 48]

/-- Read of `n` bytes at `offset` from the storage byte list; the backend
delivers as many of the requested bytes as exist. -/
def sliceBytes (storage : List Nat) (offset n : Nat) : List Nat :=
  (storage.drop offset).take n

/-- Little-endian decoding of a byte list into an unsigned integer. -/
def leNat (bytes : List Nat) : Nat :=
  bytes.foldr (fun b acc => b + 256 * acc) 0

/-- Reinterpretation of 32 raw bytes as the packed `AppDescriptor`
(field offsets 0, 8, 16, 20, 24, 25, 26 as produced by the packed layout). -/
def parseAppDescriptor (bytes : List Nat) : AppDescriptor :=
  { signature := bytes.take 8
    app_info :=
      { image_crc := leNat (sliceBytes bytes 8 8)
        image_size := leNat (sliceBytes bytes 16 4)
        vcs_commit := leNat (sliceBytes bytes 20 4)
        major_version := leNat (sliceBytes bytes 24 1)
        minor_version := leNat (sliceBytes bytes 25 1) }
    reserved := sliceBytes bytes 26 6 }

/-- `AppDescriptor::isValid(max_application_image_size)`: signature equal to
`getSignatureValue()`, `image_size > 0`, `image_size` at most the limit, and
`image_size` a multiple of `ImagePaddingBytes = 8`. -/
def descriptorIsValid (d : AppDescriptor) (maxImageSize : Nat) : Bool :=
  d.signature == signatureValue &&
  decide (0 < d.app_info.image_size) &&
  decide (d.app_info.image_size ≤ maxImageSize) &&
  d.app_info.image_size % 8 == 0

/-- Byte sequence that the CRC block of `locateAppDescriptor` feeds into
`CRC64WE` for a descriptor found at `offset` declaring `imageSize`: the
storage from 0 up to the CRC field (`crc_offset = offset + 8`, truncated at
the end of the storage exactly as the chunked read loop truncates), then
8 zero bytes in place of the CRC field, then the rest of the image up to
`imageSize` (again truncated at the end of the storage). -/
def imageCrcData (storage : List Nat) (offset imageSize : Nat) : List Nat :=
  sliceBytes storage 0 (offset + 8) ++
  List.replicate 8 0 ++
  sliceBytes storage (offset + 16) (imageSize - (offset + 16))

/-- Loop body of `Bootloader::locateAppDescriptor`, scanning from `offset`
in steps of `Step = 8`.  Each iteration: read 8 bytes (a short read breaks
the loop with no result), compare with the signature (mismatch: continue),
read the 32-byte descriptor (short read: break), check `isValid` (failure:
continue), recompute the image CRC with the CRC field zeroed and compare
with `image_crc` (mismatch: continue), otherwise return the descriptor.
The `fuel` argument only bounds the recursion; `storage.length + 1` steps
are always enough because every iteration needs `offset + 8 ≤
storage.length` and advances `offset` by 8 (see `locateLoop_fuel_stable`). -/
def locateLoop (storage : List Nat) (maxImageSize : Nat) :
    Nat → Nat → Option AppDescriptor
  | 0, _ => none
  | fuel + 1, offset =>
    if offset + 8 ≤ storage.length then
      if sliceBytes storage offset 8 == signatureValue then
        if offset + 32 ≤ storage.length then
          let desc := parseAppDescriptor (sliceBytes storage offset 32)
          if descriptorIsValid desc maxImageSize then
            if crc64we (imageCrcData storage offset desc.app_info.image_size) ==
                desc.app_info.image_crc then
              some desc
            else
              locateLoop storage maxImageSize fuel (offset + 8)
          else
            locateLoop storage maxImageSize fuel (offset + 8)
        else
          none
      else
        locateLoop storage maxImageSize fuel (offset + 8)
    else
      none

/-- `Bootloader::locateAppDescriptor()`: scan from offset 0. -/
def locateAppDescriptor (storage : List Nat) (maxImageSize : Nat) :
    Option AppDescriptor :=
  locateLoop storage maxImageSize (storage.length + 1) 0

/-- Fuel is irrelevant once it dominates the remaining storage: the scan
terminates by itself when the signature read short-reads. -/
theorem locateLoop_fuel_stable (storage : List Nat) (maxImageSize : Nat) :
    ∀ fuel offset, storage.length ≤ 8 * fuel + offset →
      locateLoop storage maxImageSize (fuel + 1) offset =
        locateLoop storage maxImageSize fuel offset := by
  intro fuel
  induction fuel with
  | zero =>
    intro offset h
    simp only [locateLoop]
    rw [if_neg]
    omega
  | succ n ih =>
    intro offset h
    by_cases h8 : offset + 8 ≤ storage.length
    · have hrec := ih (offset + 8) (by omega)
      conv_lhs => rw [locateLoop]
      conv_rhs => rw [locateLoop]
      simp only [if_pos h8]
      split_ifs <;> simp [hrec]
    · conv_lhs => rw [locateLoop]
      conv_rhs => rw [locateLoop]
      simp only [if_neg h8]

/-- Every descriptor the scan loop ever returns has passed
`AppDescriptor::isValid`. -/
theorem locateLoop_valid (storage : List Nat) (maxImageSize : Nat) :
    ∀ fuel offset desc, locateLoop storage maxImageSize fuel offset = some desc →
      descriptorIsValid desc maxImageSize = true := by
  intro fuel
  induction fuel with
  | zero => intro offset desc h; simp [locateLoop] at h
  | succ n ih =>
    intro offset desc h
    rw [locateLoop] at h
    by_cases h1 : offset + 8 ≤ storage.length
    · rw [if_pos h1] at h
      by_cases h2 : (sliceBytes storage offset 8 == signatureValue) = true
      · rw [if_pos h2] at h
        by_cases h3 : offset + 32 ≤ storage.length
        · rw [if_pos h3] at h
          by_cases h4 : descriptorIsValid (parseAppDescriptor (sliceBytes storage offset 32))
              maxImageSize = true
          · rw [if_pos h4] at h
            by_cases h5 : (crc64we (imageCrcData storage offset
                  (parseAppDescriptor (sliceBytes storage offset 32)).app_info.image_size) ==
                (parseAppDescriptor (sliceBytes storage offset 32)).app_info.image_crc) = true
            · rw [if_pos h5] at h
              injection h with h
              subst h
              exact h4
            · rw [if_neg h5] at h
              exact ih _ _ h
          · rw [if_neg h4] at h
            exact ih _ _ h
        · rw [if_neg h3] at h
          exact absurd h (by simp)
      · rw [if_neg h2] at h
        exact ih _ _ h
    · rw [if_neg h1] at h
      exact absurd h (by simp)

/-- C2: for every storage content and every offset at which the scanner finds
the 8-byte signature "APDesc00" but where the 32-byte descriptor fails the
`isValid` predicate or where the declared `image_crc` does not equal the
CRC-64/WE of bytes `[0, image_size)` with the 8 CRC-field bytes zeroed,
`locateAppDescriptor` does not return that descriptor and continues scanning
at the next 8-byte step; in particular a descriptor whose `image_size` is not
a multiple of 8 is never returned. -/
theorem locateAppDescriptor_rejects_inauthentic :
    (∀ (storage : List Nat) (maxImageSize fuel offset : Nat),
        sliceBytes storage offset 8 = signatureValue →
        offset + 32 ≤ storage.length →
        (descriptorIsValid (parseAppDescriptor (sliceBytes storage offset 32))
            maxImageSize = false ∨
          crc64we (imageCrcData storage offset
              (parseAppDescriptor (sliceBytes storage offset 32)).app_info.image_size) ≠
            (parseAppDescriptor (sliceBytes storage offset 32)).app_info.image_crc) →
        locateLoop storage maxImageSize (fuel + 1) offset =
          locateLoop storage maxImageSize fuel (offset + 8)) ∧
    (∀ (storage : List Nat) (maxImageSize : Nat) (desc : AppDescriptor),
        locateAppDescriptor storage maxImageSize = some desc →
        desc.app_info.image_size % 8 = 0) := by
  constructor
  · intro storage maxImageSize fuel offset hsig hread hbad
    have h8 : offset + 8 ≤ storage.length := by omega
    conv_lhs => rw [locateLoop]
    rw [if_pos h8,
        if_pos (show (sliceBytes storage offset 8 == signatureValue) = true by
          simp [hsig]),
        if_pos hread]
    rcases hbad with hinv | hcrc
    · rw [if_neg (by simp [hinv])]
    · by_cases hv : descriptorIsValid (parseAppDescriptor (sliceBytes storage offset 32))
          maxImageSize = true
      · rw [if_pos hv, if_neg (by simp [hcrc])]
      · rw [if_neg hv]
  · intro storage maxImageSize desc h
    have hv := locateLoop_valid storage maxImageSize _ _ desc h
    simp only [descriptorIsValid, Bool.and_eq_true, beq_iff_eq] at hv
    exact hv.2

/-- Storage whose first 8 bytes are the signature but whose descriptor has
`image_size = 0` and therefore fails `isValid`. -/
def wInvalidStorage : List Nat := signatureValue ++ List.replicate 24 0

/-- Trailing 16 bytes of a small authentic descriptor: `image_size = 32`
(little-endian), `vcs_commit = 0`, version 1.0, zero reserved bytes. -/
def wDescTail : List Nat := [32, 0, 0, 0, 0, 0, 0, 0, 1, 0, 0, 0, 0, 0, 0, 0]

/-- Correct image CRC for the 32-byte image consisting of the descriptor
alone (CRC field zeroed in the computation). -/
def wCrcVal : Nat := crc64we (signatureValue ++ List.replicate 8 0 ++ wDescTail)

/-- Little-endian encoding of a 64-bit value into 8 bytes. -/
def leBytes8 (n : Nat) : List Nat :=
  [n % 256, n / 2 ^ 8 % 256, n / 2 ^ 16 % 256, n / 2 ^ 24 % 256,
   n / 2 ^ 32 % 256, n / 2 ^ 40 % 256, n / 2 ^ 48 % 256, n / 2 ^ 56 % 256]

/-- A 32-byte storage holding one authentic descriptor at offset 0. -/
def wAuthenticStorage : List Nat := signatureValue ++ leBytes8 wCrcVal ++ wDescTail

/-- Descriptor parsed out of `wAuthenticStorage`. -/
def wAuthenticDesc : AppDescriptor := parseAppDescriptor (sliceBytes wAuthenticStorage 0 32)

theorem locateAppDescriptor_rejects_inauthentic_witness :
    locateLoop wInvalidStorage 1024 5 0 = locateLoop wInvalidStorage 1024 4 8 ∧
    wAuthenticDesc.app_info.image_size % 8 = 0 :=
  ⟨locateAppDescriptor_rejects_inauthentic.1 wInvalidStorage 1024 4 0 (by decide)
      (by decide) (Or.inl (by decide)),
   locateAppDescriptor_rejects_inauthentic.2 wAuthenticStorage 1024 wAuthenticDesc
      (by decide)⟩

/-! ## Bootloader controller
(src/zubax_chibios/bootloader/bootloader.hpp, enum State,
Bootloader::verifyAppAndUpdateState, Bootloader::upgradeApp; the same code
appears in src/zubax_chibios/bootloader/bootloader.cpp)

`upgradeApp` is modelled as a pure function of the controller state it
reads (`state_`, `cached_app_info_`) and of the results the collaborators
return during the call, producing the new state, the return value and a
trace of the `beginUpgrade`/`endUpgrade` backend calls it issues.  The
storage content seen by `verifyAppAndUpdateState`'s re-scan is carried in
the environment; writes performed through the sink during the download
stage happen inside the abstracted `downloader.download(sink)` call and
occur only when `downloaderInvoked` is true. -/

/-- Bootloader states from `enum class State`. -/
inductive State where
  | NoAppToBoot
  | BootDelay
  | BootCancelled
  | AppUpgradeInProgress
  | ReadyToBoot
deriving DecidableEq

/-- Error codes from src/zubax_chibios/bootloader/util.hpp; these are
returned from functions in negated form. -/
def ErrInvalidState : Int := 10001

/-- Error code 10002 (`ErrAppImageTooLarge`). -/
def ErrAppImageTooLarge : Int := 10002

/-- Error code 10003 (`ErrAppStorageWriteFailure`). -/
def ErrAppStorageWriteFailure : Int := 10003

/-- Backend operations traced by the `upgradeApp` model (reads issued by
the descriptor scan, and writes issued inside the abstracted downloader,
are not part of this trace). -/
inductive BackendCall where
  | beginUpgrade
  | endUpgrade (success : Bool)
deriving DecidableEq

/-- Results the collaborators of one `upgradeApp` call deliver, plus the
storage content observed by the re-scans.  `endUpgradeFalseRes` is listed
for completeness: the source discards it (`(void)backend_.endUpgrade(false)`),
which the model reflects by never reading the field. -/
structure UpgradeEnv where
  beginRes : Int
  downloadRes : Int
  endUpgradeTrueRes : Int
  endUpgradeFalseRes : Int
  storage : List Nat
  maxImageSize : Nat

/-- Observable outcome of one `upgradeApp` call: the returned `int`, the
final `state_` and `cached_app_info_`, every assignment made to `state_`
in order, the traced backend calls, and whether `downloader.download` ran. -/
structure UpgradeOutcome where
  result : Int
  state : State
  cachedAppInfo : Option AppInfo
  stateAssignments : List State
  backendCalls : List BackendCall
  downloaderInvoked : Bool
deriving DecidableEq

/-- `Bootloader::verifyAppAndUpdateState(state_on_success)`: re-scan the
storage; on success cache the app info and enter `state_on_success`,
otherwise clear the cache and enter `NoAppToBoot`. -/
def verifyAppAndUpdateState (storage : List Nat) (maxImageSize : Nat)
    (stateOnSuccess : State) : State × Option AppInfo :=
  match locateAppDescriptor storage maxImageSize with
  | some desc => (stateOnSuccess, some desc.app_info)
  | none => (State.NoAppToBoot, none)

/-- `Bootloader::upgradeApp(downloader)`.  Control flow of the source:
states `ReadyToBoot` and `AppUpgradeInProgress` are rejected with
`-ErrInvalidState` before anything is touched; otherwise `state_` becomes
`AppUpgradeInProgress` and the cache is cleared, `beginUpgrade` runs (on a
negative result: re-scan towards `BootCancelled` and return that result),
the downloader runs, `state_` is defaulted to `NoAppToBoot`, and the
download result decides between `endUpgrade(false)` (returning the download
error), a failed `endUpgrade(true)` (returning its error), or the final
re-scan towards `BootDelay` with `ErrOK = 0` returned. -/
def upgradeApp (st : State) (cache : Option AppInfo) (env : UpgradeEnv) :
    UpgradeOutcome :=
  match st with
  | State.ReadyToBoot =>
    { result := -ErrInvalidState, state := st, cachedAppInfo := cache
      stateAssignments := [], backendCalls := [], downloaderInvoked := false }
  | State.AppUpgradeInProgress =>
    { result := -ErrInvalidState, state := st, cachedAppInfo := cache
      stateAssignments := [], backendCalls := [], downloaderInvoked := false }
  | _ =>
    if env.beginRes < 0 then
      let (s, c) := verifyAppAndUpdateState env.storage env.maxImageSize State.BootCancelled
      { result := env.beginRes, state := s, cachedAppInfo := c
        stateAssignments := [State.AppUpgradeInProgress, s]
        backendCalls := [BackendCall.beginUpgrade], downloaderInvoked := false }
    else if env.downloadRes < 0 then
      let (s, c) := verifyAppAndUpdateState env.storage env.maxImageSize State.BootCancelled
      { result := env.downloadRes, state := s, cachedAppInfo := c
        stateAssignments := [State.AppUpgradeInProgress, State.NoAppToBoot, s]
        backendCalls := [BackendCall.beginUpgrade, BackendCall.endUpgrade false]
        downloaderInvoked := true }
    else if env.endUpgradeTrueRes < 0 then
      let (s, c) := verifyAppAndUpdateState env.storage env.maxImageSize State.BootCancelled
      { result := env.endUpgradeTrueRes, state := s, cachedAppInfo := c
        stateAssignments := [State.AppUpgradeInProgress, State.NoAppToBoot, s]
        backendCalls := [BackendCall.beginUpgrade, BackendCall.endUpgrade true]
        downloaderInvoked := true }
    else
      let (s, c) := verifyAppAndUpdateState env.storage env.maxImageSize State.BootDelay
      { result := 0, state := s, cachedAppInfo := c
        stateAssignments := [State.AppUpgradeInProgress, State.NoAppToBoot, s]
        backendCalls := [BackendCall.beginUpgrade, BackendCall.endUpgrade true]
        downloaderInvoked := true }

/-- C3: when the downloader returns a non-negative result and
`backend.endUpgrade(true)` returns non-negative, `upgradeApp` returns 0
(success) even if the finalisation re-scan finds no authentic descriptor;
the state after `upgradeApp` is `NoAppToBoot` (`BootDelay` if an authentic
image is found) and the cached app info is repopulated by that re-scan. -/
theorem upgradeApp_success_returns_ok (st : State) (cache : Option AppInfo)
    (env : UpgradeEnv)
    (hst : st = State.BootDelay ∨ st = State.BootCancelled ∨ st = State.NoAppToBoot)
    (hbegin : 0 ≤ env.beginRes) (hdl : 0 ≤ env.downloadRes)
    (hend : 0 ≤ env.endUpgradeTrueRes) :
    (upgradeApp st cache env).result = 0 ∧
    (upgradeApp st cache env).cachedAppInfo =
      (locateAppDescriptor env.storage env.maxImageSize).map (fun d => d.app_info) ∧
    (upgradeApp st cache env).state =
      (match locateAppDescriptor env.storage env.maxImageSize with
       | some _ => State.BootDelay
       | none => State.NoAppToBoot) := by
  have h1 : ¬ env.beginRes < 0 := by omega
  have h2 : ¬ env.downloadRes < 0 := by omega
  have h3 : ¬ env.endUpgradeTrueRes < 0 := by omega
  rcases hst with rfl | rfl | rfl <;>
    · simp only [upgradeApp, if_neg h1, if_neg h2, if_neg h3]
      cases hloc : locateAppDescriptor env.storage env.maxImageSize <;>
        simp [verifyAppAndUpdateState, hloc]

/-- Concrete environment for the controller witnesses: all collaborators
succeed, the storage is empty. -/
def wEnvOk : UpgradeEnv :=
  { beginRes := 0, downloadRes := 0, endUpgradeTrueRes := 0,
    endUpgradeFalseRes := 0, storage := [], maxImageSize := 1024 }

theorem upgradeApp_success_returns_ok_witness :
    (upgradeApp State.NoAppToBoot none wEnvOk).result = 0 ∧
    (upgradeApp State.NoAppToBoot none wEnvOk).cachedAppInfo =
      (locateAppDescriptor wEnvOk.storage wEnvOk.maxImageSize).map (fun d => d.app_info) ∧
    (upgradeApp State.NoAppToBoot none wEnvOk).state =
      (match locateAppDescriptor wEnvOk.storage wEnvOk.maxImageSize with
       | some _ => State.BootDelay
       | none => State.NoAppToBoot) :=
  upgradeApp_success_returns_ok State.NoAppToBoot none wEnvOk
    (Or.inr (Or.inr rfl)) (by decide) (by decide) (by decide)

/-- C4: if the downloader returns a negative result, `upgradeApp` calls
`backend.endUpgrade(false)`, re-scans the storage, sets the state to
`BootCancelled` if an authentic descriptor is found and to `NoAppToBoot`
otherwise, and returns the downloader's original negative result unchanged
(the `endUpgrade(false)` result — `env.endUpgradeFalseRes`, which the model
never reads because the source discards it — never replaces it). -/
theorem upgradeApp_download_failure (st : State) (cache : Option AppInfo)
    (env : UpgradeEnv)
    (hst : st = State.BootDelay ∨ st = State.BootCancelled ∨ st = State.NoAppToBoot)
    (hbegin : 0 ≤ env.beginRes) (hdl : env.downloadRes < 0) :
    (upgradeApp st cache env).result = env.downloadRes ∧
    (upgradeApp st cache env).backendCalls =
      [BackendCall.beginUpgrade, BackendCall.endUpgrade false] ∧
    (upgradeApp st cache env).state =
      (match locateAppDescriptor env.storage env.maxImageSize with
       | some _ => State.BootCancelled
       | none => State.NoAppToBoot) := by
  have h1 : ¬ env.beginRes < 0 := by omega
  rcases hst with rfl | rfl | rfl <;>
    · simp only [upgradeApp, if_neg h1, if_pos hdl]
      cases hloc : locateAppDescriptor env.storage env.maxImageSize <;>
        simp [verifyAppAndUpdateState, hloc]

/-- Concrete environment in which the download fails with -7. -/
def wEnvDlFail : UpgradeEnv :=
  { beginRes := 0, downloadRes := -7, endUpgradeTrueRes := 0,
    endUpgradeFalseRes := -99, storage := [], maxImageSize := 1024 }

theorem upgradeApp_download_failure_witness :
    (upgradeApp State.BootCancelled none wEnvDlFail).result = wEnvDlFail.downloadRes ∧
    (upgradeApp State.BootCancelled none wEnvDlFail).backendCalls =
      [BackendCall.beginUpgrade, BackendCall.endUpgrade false] ∧
    (upgradeApp State.BootCancelled none wEnvDlFail).state =
      (match locateAppDescriptor wEnvDlFail.storage wEnvDlFail.maxImageSize with
       | some _ => State.BootCancelled
       | none => State.NoAppToBoot) :=
  upgradeApp_download_failure State.BootCancelled none wEnvDlFail
    (Or.inr (Or.inl rfl)) (by decide) (by decide)

/-- C5: from `ReadyToBoot` or `AppUpgradeInProgress`, `upgradeApp` returns
`-ErrInvalidState` (-10001) without changing the state or the cached app
info and without invoking any backend operation (no `beginUpgrade`, no
`endUpgrade`; `write` only ever happens inside the downloader, which is not
invoked); from `BootDelay`, `BootCancelled` and `NoAppToBoot` it proceeds
and its first assignment to `state_` is `AppUpgradeInProgress`. -/
theorem upgradeApp_invalid_state (st : State) (cache : Option AppInfo)
    (env : UpgradeEnv) :
    ((st = State.ReadyToBoot ∨ st = State.AppUpgradeInProgress) →
      upgradeApp st cache env =
        { result := -ErrInvalidState, state := st, cachedAppInfo := cache,
          stateAssignments := [], backendCalls := [], downloaderInvoked := false }) ∧
    ((st = State.BootDelay ∨ st = State.BootCancelled ∨ st = State.NoAppToBoot) →
      (upgradeApp st cache env).stateAssignments.head? =
        some State.AppUpgradeInProgress) := by
  constructor
  · intro hst
    rcases hst with rfl | rfl <;> rfl
  · intro hst
    rcases hst with rfl | rfl | rfl <;>
      · simp only [upgradeApp]
        split_ifs <;>
          (cases hloc : locateAppDescriptor env.storage env.maxImageSize <;>
            simp [verifyAppAndUpdateState, hloc])

theorem upgradeApp_invalid_state_witness :
    upgradeApp State.ReadyToBoot none wEnvOk =
      { result := -ErrInvalidState, state := State.ReadyToBoot, cachedAppInfo := none,
        stateAssignments := [], backendCalls := [], downloaderInvoked := false } ∧
    (upgradeApp State.BootDelay none wEnvOk).stateAssignments.head? =
      some State.AppUpgradeInProgress :=
  ⟨(upgradeApp_invalid_state State.ReadyToBoot none wEnvOk).1 (Or.inl rfl),
   (upgradeApp_invalid_state State.BootDelay none wEnvOk).2 (Or.inl rfl)⟩

/-! ## Download sink
(src/zubax_chibios/bootloader/bootloader.hpp, Bootloader::Sink; the same
code appears anonymously in src/zubax_chibios/bootloader/bootloader.cpp)

`handleNextDataChunk(data, size)` is modelled as a function of the current
`offset_`, the configured `max_image_size_`, the chunk size and the result
the backend `write` would return; it yields the returned `int`, the new
`offset_`, and the `(offset, size)` arguments of the `write` call when one
was issued (`none` when `write` was not called). -/

/-- Observable outcome of one `Sink::handleNextDataChunk` call. -/
structure SinkOutcome where
  result : Int
  offset : Nat
  writeArgs : Option (Nat × Nat)
deriving DecidableEq

/-- `Sink::handleNextDataChunk`: if `offset_ + size <= max_image_size_`,
call `backend_.write(offset_, data, size)`; a non-negative result different
from `size` returns `-ErrAppStorageWriteFailure` before `offset_` is
advanced; any other result is returned after `offset_ += size` (including
negative ones).  A chunk that would exceed `max_image_size_` returns
`-ErrAppImageTooLarge` without touching anything. -/
def handleNextDataChunk (offset maxImageSize size : Nat) (writeRes : Int) :
    SinkOutcome :=
  if offset + size ≤ maxImageSize then
    if 0 ≤ writeRes ∧ writeRes ≠ (size : Int) then
      { result := -ErrAppStorageWriteFailure, offset := offset,
        writeArgs := some (offset, size) }
    else
      { result := writeRes, offset := offset + size,
        writeArgs := some (offset, size) }
  else
    { result := -ErrAppImageTooLarge, offset := offset, writeArgs := none }

/-- C6: a chunk with `offset + size > max_image_size` is rejected with
`-ErrAppImageTooLarge` (-10002) without calling `backend.write` and without
changing the offset; and when `backend.write` returns a non-negative count
different from the chunk size, the sink returns
`-ErrAppStorageWriteFailure` (-10003). -/
theorem handleNextDataChunk_errors (offset maxImageSize size : Nat)
    (writeRes : Int) :
    (maxImageSize < offset + size →
      handleNextDataChunk offset maxImageSize size writeRes =
        { result := -ErrAppImageTooLarge, offset := offset, writeArgs := none }) ∧
    (offset + size ≤ maxImageSize → 0 ≤ writeRes → writeRes ≠ (size : Int) →
      (handleNextDataChunk offset maxImageSize size writeRes).result =
        -ErrAppStorageWriteFailure) := by
  constructor
  · intro hover
    rw [handleNextDataChunk, if_neg (by omega)]
  · intro hfit hnonneg hne
    rw [handleNextDataChunk, if_pos hfit, if_pos ⟨hnonneg, hne⟩]

theorem handleNextDataChunk_errors_witness :
    handleNextDataChunk 0 1024 1025 1025 =
      { result := -ErrAppImageTooLarge, offset := 0, writeArgs := none } ∧
    (handleNextDataChunk 0 1024 64 10).result = -ErrAppStorageWriteFailure :=
  ⟨(handleNextDataChunk_errors 0 1024 1025 1025).1 (by decide),
   (handleNextDataChunk_errors 0 1024 64 10).2 (by decide) (by decide) (by decide)⟩

/-- C10: if `backend.write` returns a negative error code for a chunk that
passed the bounds check, the sink returns that negative code but still
advances its offset by the chunk size, so a later retry of the same chunk
is written `size` bytes further into the image. -/
theorem handleNextDataChunk_error_advances_offset (offset maxImageSize size : Nat)
    (writeRes retryWriteRes : Int)
    (hfit : offset + size ≤ maxImageSize) (herr : writeRes < 0) :
    handleNextDataChunk offset maxImageSize size writeRes =
      { result := writeRes, offset := offset + size,
        writeArgs := some (offset, size) } ∧
    (offset + size + size ≤ maxImageSize →
      (handleNextDataChunk
          (handleNextDataChunk offset maxImageSize size writeRes).offset
          maxImageSize size retryWriteRes).writeArgs = some (offset + size, size)) := by
  have hfirst : handleNextDataChunk offset maxImageSize size writeRes =
      { result := writeRes, offset := offset + size,
        writeArgs := some (offset, size) } := by
    rw [handleNextDataChunk, if_pos hfit, if_neg (by omega)]
  refine ⟨hfirst, fun hfit2 => ?_⟩
  rw [hfirst]
  simp only [handleNextDataChunk, if_pos hfit2]
  split_ifs <;> rfl

theorem handleNextDataChunk_error_advances_offset_witness :
    handleNextDataChunk 8 1024 16 (-5) =
      { result := -5, offset := 24, writeArgs := some (8, 16) } ∧
    (8 + 16 + 16 ≤ 1024 →
      (handleNextDataChunk (handleNextDataChunk 8 1024 16 (-5)).offset
          1024 16 16).writeArgs = some (8 + 16, 16)) := by
  have h := handleNextDataChunk_error_advances_offset 8 1024 16 (-5) 16
    (by decide) (by decide)
  exact ⟨by simpa using h.1, h.2⟩

/-! ## Configuration parameter validity
(src/zubax_chibios/config/config.cpp, static isValid)

Values are IEEE-754 `float`s.  The predicate only ever compares values and
takes an absolute value, and every finite `float` is a rational number on
which those operations are exact, so a `float` is modelled as either NaN,
a signed infinity, or a finite rational; the IEEE comparison semantics
(NaN incomparable, infinities ordered around all finite values, -0 = +0)
is spelled out in `F32.flt`/`F32.fle`. -/

/-- Model of an IEEE-754 binary32 value as seen by the comparisons the
config code performs. -/
inductive F32 where
  | nan
  | inf (negative : Bool)
  | fin (q : ℚ)
deriving DecidableEq

/-- `std::isfinite`. -/
def F32.isFinite : F32 → Bool
  | .fin _ => true
  | _ => false

/-- IEEE `<` on floats: false whenever an operand is NaN. -/
def F32.flt : F32 → F32 → Bool
  | .nan, _ => false
  | _, .nan => false
  | .inf true, .inf true => false
  | .inf true, _ => true
  | .inf false, _ => false
  | .fin _, .inf true => false
  | .fin _, .inf false => true
  | .fin a, .fin b => decide (a < b)

/-- IEEE `<=` on floats: false whenever an operand is NaN. -/
def F32.fle : F32 → F32 → Bool
  | .nan, _ => false
  | _, .nan => false
  | .inf true, _ => true
  | _, .inf false => true
  | .inf false, _ => false
  | .fin _, .inf true => false
  | .fin a, .fin b => decide (a ≤ b)

/-- `std::abs` on a float. -/
def F32.fabs : F32 → F32
  | .nan => .nan
  | .inf _ => .inf false
  | .fin q => .fin |q|

/-- Parameter kinds `CONFIG_TYPE_BOOL`, `CONFIG_TYPE_INT`,
`CONFIG_TYPE_FLOAT` from config.h. -/
inductive ConfigType where
  | CONFIG_TYPE_BOOL
  | CONFIG_TYPE_INT
  | CONFIG_TYPE_FLOAT
deriving DecidableEq

/-- Registration record `ConfigParam`: name (modelled as its byte list),
default, min, max, type. -/
structure ConfigParam where
  name : List Nat
  default_ : F32
  min : F32
  max : F32
  type : ConfigType
deriving DecidableEq

/-- `isValid(descr, value)` from config.cpp: reject non-finite values and
names longer than `CONFIG_PARAM_MAX_NAME_LENGTH = 92`; for `BOOL` reject
`value < 0.0f || value > 1.0f`; for `INT` reject `abs(value) >= 16777216.0f`
and fall through to the `FLOAT` range check
`value > descr->max || value < descr->min`. -/
def isValid (descr : ConfigParam) (value : F32) : Bool :=
  if ¬ value.isFinite then false
  else if 92 < descr.name.length then false
  else
    match descr.type with
    | ConfigType.CONFIG_TYPE_BOOL =>
      if F32.flt value (F32.fin 0) || F32.flt (F32.fin 1) value then false else true
    | ConfigType.CONFIG_TYPE_INT =>
      if F32.fle (F32.fin 16777216) value.fabs then false
      else if F32.flt descr.max value || F32.flt value descr.min then false else true
    | ConfigType.CONFIG_TYPE_FLOAT =>
      if F32.flt descr.max value || F32.flt value descr.min then false else true

/-- Validity predicate as the specification words it (refinement target for
C7): finite; for Bool, value in {0, 1}; for Int, value exactly representable
as an integer and `|value| < 2 ^ 24`; for Int or Float,
`min <= value <= max`. -/
def isValidClaimed (descr : ConfigParam) (value : F32) : Bool :=
  value.isFinite &&
  (match descr.type, value with
   | ConfigType.CONFIG_TYPE_BOOL, v => v == F32.fin 0 || v == F32.fin 1
   | ConfigType.CONFIG_TYPE_INT, F32.fin q =>
     (q.den == 1) && decide (|q| < 16777216) &&
     F32.fle descr.min (F32.fin q) && F32.fle (F32.fin q) descr.max
   | ConfigType.CONFIG_TYPE_FLOAT, v => F32.fle descr.min v && F32.fle v descr.max
   | _, _ => false)

/-- A Bool parameter with range [0, 1]. -/
def cexBoolParam : ConfigParam :=
  { name := [98], default_ := F32.fin 0, min := F32.fin 0, max := F32.fin 1,
    type := ConfigType.CONFIG_TYPE_BOOL }

/-- C7 counterexample: for a Bool parameter the code accepts the value 0.5
(it only rejects values outside [0, 1]), while the claimed predicate
(value in {0, 1}) rejects it, so `isValid` does not hold exactly when the
claim says it does. -/
theorem isValid_claim_false_at_half :
    isValid cexBoolParam (F32.fin (1 / 2)) = true ∧
    isValidClaimed cexBoolParam (F32.fin (1 / 2)) = false := by
  constructor
  · norm_num [isValid, cexBoolParam, F32.isFinite, F32.flt]
  · norm_num [isValidClaimed, cexBoolParam, F32.isFinite]

/-- C7 (amended): `isValid(param, value)` holds only for finite values, and
for finite `min`/`max` bounds it holds exactly when the name is at most 92
bytes long and: for Bool, `0 <= value <= 1` (the whole interval, not just
{0, 1}); for Int, `|value| < 2 ^ 24` and `min <= value <= max` (no
integrality requirement); for Float, `min <= value <= max`. -/
theorem config_isValid_characterisation :
    (∀ (d : ConfigParam) (v : F32), isValid d v = true → v.isFinite = true) ∧
    (∀ (d : ConfigParam) (q qmin qmax : ℚ),
      d.min = F32.fin qmin → d.max = F32.fin qmax →
      (isValid d (F32.fin q) = true ↔
        (d.name.length ≤ 92 ∧
          match d.type with
          | ConfigType.CONFIG_TYPE_BOOL => 0 ≤ q ∧ q ≤ 1
          | ConfigType.CONFIG_TYPE_INT => |q| < 16777216 ∧ qmin ≤ q ∧ q ≤ qmax
          | ConfigType.CONFIG_TYPE_FLOAT => qmin ≤ q ∧ q ≤ qmax))) := by
  constructor
  · intro d v h
    cases v <;> simp [isValid, F32.isFinite] at h ⊢
  · intro d q qmin qmax hmin hmax
    obtain ⟨name, def_, dmin, dmax, ty⟩ := d
    simp only at hmin hmax
    subst hmin hmax
    cases ty <;>
      simp [isValid, F32.isFinite, F32.flt, F32.fle, F32.fabs,
        not_or, not_lt, not_le] <;>
      tauto

theorem config_isValid_characterisation_witness :
    (isValid cexBoolParam (F32.fin 1) = true → (F32.fin 1).isFinite = true) ∧
    (isValid cexBoolParam (F32.fin 1) = true ↔
      (cexBoolParam.name.length ≤ 92 ∧ (0 : ℚ) ≤ 1 ∧ (1 : ℚ) ≤ 1)) :=
  ⟨config_isValid_characterisation.1 cexBoolParam (F32.fin 1),
   config_isValid_characterisation.2 cexBoolParam 1 0 1 rfl rfl⟩

/-! ## Configuration layout hash and init
(src/zubax_chibios/config/config.cpp: crc32_step, crc32,
configRegisterParam_ and os::config::init)

Registration appends the bytes of each registered name into the running
CRC-32 `_layout_hash`; `init` compares the stored hash against the
computed one and restores or reinstalls defaults.  Storage reads are
modelled as reliable, which collapses the `MaxRetries` read loops of the
source to a single attempt.  The on-flash byte serialisation of the value
pool is abstracted by a parameter `enc`; no result below depends on it. -/

/-- One round of `crc = (crc >> 1) ^ (0xEDB88320 & -(crc & 1))`; on
`uint32_t`, `-(crc & 1)` is 0 or all-ones, so the masked polynomial is 0 or
0xEDB88320.  All quantities stay below `2 ^ 32`, so no truncation occurs. -/
def crc32Round (crc : Nat) : Nat :=
  (crc >>> 1) ^^^ (if crc &&& 1 = 1 then 0xEDB88320 else 0)

/-- `crc32_step(crc, new_byte)`: xor the byte in, then eight rounds
(the `for (j = 7; j >= 0; j--)` loop). -/
def crc32_step (crc newByte : Nat) : Nat :=
  (List.range 8).foldl (fun c _ => crc32Round c) (crc ^^^ newByte)

/-- `crc32(data, len)` over a byte list, initial value 0, no final xor. -/
def crc32 (data : List Nat) : Nat :=
  data.foldl crc32_step 0

/-- Running `_layout_hash` after registering the given names in order:
`configRegisterParam_` folds `crc32_step` over every byte of every
registered name, starting from 0. -/
def layoutHash (names : List (List Nat)) : Nat :=
  names.foldl (fun h name => name.foldl crc32_step h) 0

/-- Return code `InitCodeRestored` of `os::config::init`. -/
def InitCodeRestored : Int := 1

/-- Return code `InitCodeLayoutMismatch` of `os::config::init`. -/
def InitCodeLayoutMismatch : Int := 2

/-- Return code `InitCodeCRCMismatch` of `os::config::init`. -/
def InitCodeCRCMismatch : Int := 3

/-- `os::config::init(storage)` for registered `params`, given what the
storage holds (layout hash word, value pool, CRC word) and a byte
serialisation `enc` for pool values.  Defaults are installed first; a
stored hash different from the computed hash returns `LayoutMismatch`
with the defaults left in place; otherwise a matching pool CRC restores
the pool, resetting any individually invalid value to its default, and a
mismatching CRC reinstalls defaults. -/
def configInit (enc : F32 → List Nat) (params : List ConfigParam)
    (storedHash : Nat) (storedPool : List F32) (storedCrc : Nat) :
    Int × List F32 :=
  if storedHash ≠ layoutHash (params.map (fun p => p.name)) then
    (InitCodeLayoutMismatch, params.map (fun p => p.default_))
  else if crc32 ((storedPool.map enc).flatten) = storedCrc then
    (InitCodeRestored,
      List.zipWith (fun p v => if isValid p v then v else p.default_) params storedPool)
  else
    (InitCodeCRCMismatch, params.map (fun p => p.default_))

/-- Folding the per-name byte folds equals one fold over the concatenated
names. -/
theorem layoutHash_foldl_flatten (names : List (List Nat)) :
    ∀ h0 : Nat, names.foldl (fun h name => name.foldl crc32_step h) h0 =
      names.flatten.foldl crc32_step h0 := by
  induction names with
  | nil => intro h0; rfl
  | cons n ns ih => intro h0; simp [List.foldl_append, ih]

/-- Two distinct name sequences whose concatenations agree. -/
def cexNames1 : List (List Nat) := [[97, 98]]

/-- Registered names "a", "b": distinct from registering "ab" alone, yet
byte-wise identical once concatenated. -/
def cexNames2 : List (List Nat) := [[97], [98]]

/-- Single registered parameter named "ab". -/
def cexParamsAB : List ConfigParam :=
  [{ name := [97, 98], default_ := F32.fin 0, min := F32.fin 0,
     max := F32.fin 1, type := ConfigType.CONFIG_TYPE_BOOL }]

/-- Four-byte-per-value pool serialisation used by the C8 concrete
instances (the value 0.0f stored as four zero bytes). -/
def cexEnc : F32 → List Nat := fun _ => [0, 0, 0, 0]

/-- C8 counterexample: the name sequences ["ab"] and ["a", "b"] are
distinct but produce the same `layout_hash`, and `init` of a registry with
the single name "ab" against a store saved under ["a", "b"] (hash equal,
one-value pool with matching CRC) returns `Restored`, not
`LayoutMismatch`. -/
theorem layoutHash_not_discriminating :
    cexNames1 ≠ cexNames2 ∧
    layoutHash cexNames1 = layoutHash cexNames2 ∧
    (configInit cexEnc cexParamsAB (layoutHash cexNames2) [F32.fin 0]
        (crc32 [0, 0, 0, 0])).1 ≠ InitCodeLayoutMismatch := by
  refine ⟨by decide, by decide, ?_⟩
  decide

/-- C8 (amended): the layout hash is the CRC-32 of the concatenation of the
registered names, so it depends only on that concatenation — distinct name
sets are not guaranteed distinct hashes — and `init` against a store whose
saved `layout_hash` differs from the computed one returns `LayoutMismatch`
and leaves the in-memory values at their defaults. -/
theorem layoutHash_concat_and_mismatch :
    (∀ names : List (List Nat), layoutHash names = crc32 names.flatten) ∧
    (∀ (enc : F32 → List Nat) (params : List ConfigParam) (storedHash : Nat)
        (storedPool : List F32) (storedCrc : Nat),
      storedHash ≠ layoutHash (params.map (fun p => p.name)) →
      configInit enc params storedHash storedPool storedCrc =
        (InitCodeLayoutMismatch, params.map (fun p => p.default_))) := by
  constructor
  · intro names
    exact layoutHash_foldl_flatten names 0
  · intro enc params storedHash storedPool storedCrc h
    rw [configInit, if_pos h]

theorem layoutHash_concat_and_mismatch_witness :
    configInit cexEnc cexParamsAB 12345 [F32.fin 0] 0 =
      (InitCodeLayoutMismatch, cexParamsAB.map (fun p => p.default_)) :=
  layoutHash_concat_and_mismatch.2 cexEnc cexParamsAB 12345 [F32.fin 0] 0 (by decide)

/-! ## UAVCAN firmware update node
(src/zubax_chibios/bootloader/loaders/uavcan.hpp,
UAVCANFirmwareUpdateNode::shouldAcceptTransfer and
UAVCANFirmwareUpdateNode::onTransferReception)

Data type ids from the `impl_::dsdl` registry: NodeIDAllocation = 1
(broadcast), GetNodeInfo = 1 (service), BeginFirmwareUpdate = 40,
FileRead = 48, RestartNode = 5.  `CANARD_BROADCAST_NODE_ID = 0`.

`onTransferReception` is projected onto the observables that claim C9 is
about: the fields `remote_server_node_id_` and `firmware_file_path_`, and
the `canardRequestOrRespond(..., CanardResponse, ...)` calls it makes.  The
source function has three branches — dynamic node-ID allocation (guarded by
an unset local node ID; it updates only allocation bookkeeping and the
local node ID), GetNodeInfo requests (responds with data type 1), and
RestartNode requests (responds with data type 5 iff the decoded 40-bit
magic equals 0xACCE551B1E, modelled by `restartMagicOk`).  None of the
branches assigns `remote_server_node_id_` or `firmware_file_path_`; those
two fields are only ever written by `start()`. -/

/-- Transfer kinds of libcanard. -/
inductive CanardTransferType where
  | broadcast
  | request
  | response
deriving DecidableEq

/-- `UAVCANFirmwareUpdateNode::shouldAcceptTransfer`: with no local node ID
only anonymous allocation broadcasts are accepted; with a local node ID the
accepted transfers are GetNodeInfo, BeginFirmwareUpdate and RestartNode
requests and FileRead responses. -/
def shouldAcceptTransfer (localNodeId : Nat)
    (transferType : CanardTransferType) (dataTypeId : Nat) : Bool :=
  if localNodeId = 0 then
    transferType == CanardTransferType.broadcast && dataTypeId == 1
  else
    (transferType == CanardTransferType.request && dataTypeId == 1) ||
    (transferType == CanardTransferType.request && dataTypeId == 40) ||
    (transferType == CanardTransferType.response && dataTypeId == 48) ||
    (transferType == CanardTransferType.request && dataTypeId == 5)

/-- Effect of one `onTransferReception` call on the observables of C9. -/
structure ReceptionEffect where
  remoteServerNodeId : Nat
  firmwareFilePath : List Nat
  responses : List Nat
deriving DecidableEq

/-- Projection of `UAVCANFirmwareUpdateNode::onTransferReception` onto
`remote_server_node_id_`, `firmware_file_path_` and the service responses
sent.  The allocation branch (only taken while `localNodeId = 0`) does not
touch any of the three observables, so the projection does not branch on
`localNodeId`; the GetNodeInfo and RestartNode branches respond but leave
the two fields alone; no branch handles data type 40. -/
def onTransferReception (_localNodeId remoteServerNodeId : Nat)
    (firmwareFilePath : List Nat) (transferType : CanardTransferType)
    (dataTypeId : Nat) (restartMagicOk : Bool) : ReceptionEffect :=
  { remoteServerNodeId := remoteServerNodeId
    firmwareFilePath := firmwareFilePath
    responses :=
      (if transferType == CanardTransferType.request && dataTypeId == 1
       then [1] else []) ++
      (if transferType == CanardTransferType.request && dataTypeId == 5 &&
          restartMagicOk
       then [5] else []) }

/-- C9: the claim says that a BeginFirmwareUpdate service request addressed
to the node makes the reception handler record the server node ID and file
path and send an acknowledgement.  The code accepts such transfers
(`shouldAcceptTransfer` returns true for request/40 once a node ID is set)
but `onTransferReception` has no branch for data type 40: the fields stay
unchanged and no response is sent. -/
theorem beginFirmwareUpdate_request_ignored (localNodeId serverNodeId : Nat)
    (filePath : List Nat) (restartMagicOk : Bool) (hlocal : localNodeId ≠ 0) :
    shouldAcceptTransfer localNodeId CanardTransferType.request 40 = true ∧
    onTransferReception localNodeId serverNodeId filePath
        CanardTransferType.request 40 restartMagicOk =
      { remoteServerNodeId := serverNodeId, firmwareFilePath := filePath,
        responses := [] } := by
  constructor
  · simp [shouldAcceptTransfer, hlocal]
  · simp [onTransferReception]

theorem beginFirmwareUpdate_request_ignored_witness :
    shouldAcceptTransfer 125 CanardTransferType.request 40 = true ∧
    onTransferReception 125 0 [] CanardTransferType.request 40 false =
      { remoteServerNodeId := 0, firmwareFilePath := [], responses := [] } :=
  beginFirmwareUpdate_request_ignored 125 0 [] false (by decide)

end ZubaxVerify
